import Mathlib

/-!
Shallow embedding of the activity-telemetry core in src/src-tauri/src/main.rs:
the bounded activity ring buffer, the input-listener aggregation state machine
with throttling and batching, the capture start/stop command handlers, idle
detection, and the BGRA-to-RGBA pixel conversion. Machine integers (u64) are
modelled as Nat; the one place where overflow can matter (the u64
multiplication in is_idle) carries an explicit reduction modulo 2 ^ 64.
Timestamps from both clocks (SystemTime epoch millis and Instant) are
modelled as a single Nat millisecond clock supplied per event.
-/

set_option autoImplicit false
set_option maxRecDepth 4000

namespace Spectosoft

/-- Ring buffer push, from the push_event closure in spawn_input_listener
(main.rs lines 292-311): push_back the new entry, then pop_front one entry
when the length exceeds 200. -/
def push_event {α : Type} (q : List α) (e : α) : List α :=
  if 200 < (q ++ [e]).length then (q ++ [e]).drop 1 else q ++ [e]

/-- Folding push_event over a whole sequence of pushes, starting from the
empty buffer the listener begins with. -/
def pushAll {α : Type} (es : List α) : List α :=
  es.foldl push_event []

/-- The get_recent_activity command (main.rs lines 423-433): effective limit
is the argument with default 50, capped at 200; the result is the suffix of
the queue starting at len saturating-minus limit; a failed lock yields the
empty list. -/
def get_recent_activity {α : Type} (q : List α) (limit : Option Nat) (lockOk : Bool) : List α :=
  if lockOk then
    q.drop (q.length - min (limit.getD 50) 200)
  else []

/-- The clear_activity command (main.rs lines 442-447). -/
def clear_activity {α : Type} (_q : List α) : List α := []

theorem push_event_eq {α : Type} (q : List α) (e : α) (h : q.length ≤ 200) :
    push_event q e = (q ++ [e]).drop (q.length + 1 - 200) := by
  unfold push_event
  split_ifs with h1
  · simp only [List.length_append, List.length_singleton] at h1
    have h2 : q.length + 1 - 200 = 1 := by omega
    rw [h2]
  · simp only [List.length_append, List.length_singleton] at h1
    have h2 : q.length + 1 - 200 = 0 := by omega
    rw [h2, List.drop_zero]

theorem push_event_length_le {α : Type} (q : List α) (e : α) (h : q.length ≤ 200) :
    (push_event q e).length ≤ 200 := by
  rw [push_event_eq q e h]
  simp only [List.length_drop, List.length_append, List.length_singleton]
  omega

theorem foldl_push_eq {α : Type} (es : List α) : ∀ (q : List α), q.length ≤ 200 →
    List.foldl push_event q es = (q ++ es).drop ((q ++ es).length - 200) := by
  induction es with
  | nil =>
    intro q hq
    simp only [List.foldl_nil, List.append_nil]
    have h0 : q.length - 200 = 0 := by omega
    rw [h0, List.drop_zero]
  | cons e es ih =>
    intro q hq
    rw [List.foldl_cons, ih (push_event q e) (push_event_length_le q e hq),
        push_event_eq q e hq]
    have hd : q.length + 1 - 200 ≤ (q ++ [e]).length := by
      simp only [List.length_append, List.length_singleton]; omega
    rw [← List.drop_append_of_le_length hd, List.drop_drop, List.length_drop,
        List.append_assoc, List.singleton_append]
    congr 1
    simp only [List.length_append, List.length_cons, List.length_singleton]
    omega

/-- The reachable ring buffer is exactly the suffix of length at most 200 of
everything pushed so far, in push order. -/
theorem pushAll_eq {α : Type} (es : List α) :
    pushAll es = es.drop (es.length - 200) := by
  have h := foldl_push_eq es [] (by simp)
  simpa [pushAll] using h

theorem pushAll_length_le {α : Type} (es : List α) : (pushAll es).length ≤ 200 := by
  rw [pushAll_eq]
  simp only [List.length_drop]
  omega

/-- Keyboard keys from the rdev event stream, restricted to the constructors
the listener callback in main.rs distinguishes; Other stands for the
catch-all arm that counts a typed character. -/
inductive Key where
  | ControlLeft | ControlRight
  | Alt | AltGr
  | ShiftLeft | ShiftRight
  | Return
  | Backspace
  | LeftArrow | RightArrow | UpArrow | DownArrow
  | Home | End
  | PageUp | PageDown
  | F1 | F2 | F3 | F4 | F5 | F6 | F7 | F8 | F9 | F10 | F11 | F12
  | KeyC | KeyV
  | Other
deriving DecidableEq, Repr

/-- Mouse buttons from the rdev event stream; Unknown carries the raw byte,
compared by value as in the derived PartialEq of rdev. -/
inductive Button where
  | Left | Right | Middle
  | Unknown (code : Nat)
deriving DecidableEq, Repr

/-- Raw input event kinds handled by the listener callback. -/
inductive EventType where
  | KeyPress (k : Key)
  | KeyRelease (k : Key)
  | ButtonPress (b : Button)
  | ButtonRelease (b : Button)
  | MouseMove
  | Wheel
deriving DecidableEq, Repr

/-- Modifier key counters (struct ModStats, main.rs lines 225-230). -/
structure ModStats where
  alt : Nat := 0
  shift : Nat := 0
  ctrl : Nat := 0
deriving DecidableEq, Repr

/-- Navigation key counters (struct NavKeys, main.rs lines 232-237). -/
structure NavKeys where
  pgup_pgdn : Nat := 0
  arrows : Nat := 0
  home_end : Nat := 0
deriving DecidableEq, Repr

/-- Function key counter (struct FunctionKeys, main.rs lines 239-242). -/
structure FunctionKeys where
  f1_f12 : Nat := 0
deriving DecidableEq, Repr

/-- Mouse counters (struct MouseStats, main.rs lines 244-253). -/
structure MouseStats where
  left_clicks : Nat := 0
  right_clicks : Nat := 0
  middle_clicks : Nat := 0
  scrolls : Nat := 0
  moves : Nat := 0
  double_clicks : Nat := 0
  drags : Nat := 0
deriving DecidableEq, Repr

/-- Session metrics (struct Metrics, main.rs lines 211-223). -/
structure Metrics where
  kpm : Nat := 0
  char_count : Nat := 0
  backspace_count : Nat := 0
  enter_count : Nat := 0
  copy_count : Nat := 0
  paste_count : Nat := 0
  mods : ModStats := {}
  nav_keys : NavKeys := {}
  function_keys : FunctionKeys := {}
  mouse : MouseStats := {}
deriving DecidableEq, Repr

/-- Foreground window context as returned by get_active_window_info
(main.rs lines 122-177), treated as an external collaborator that either
yields the four fields or nothing. -/
structure WindowInfo where
  app_name : String
  process_name : String
  window_title : String
  pid : Nat
deriving DecidableEq, Repr

/-- One serialized activity record as built at flush time
(main.rs lines 400-408). -/
structure LogEntry where
  app_name : String
  window_title : String
  process_name : String
  pid : Nat
  timestamp : Nat
  metrics : Metrics
deriving DecidableEq, Repr

/-- Mutable state owned by the listener callback closure plus the two pieces
of CaptureHandle it writes (last_input_ts and the activity queue); the
Instant values last_mouse_log and last_log_time are modelled on the same
millisecond clock as the event timestamps. -/
structure ListenerState where
  metrics : Metrics
  ctrl_pressed : Bool
  mouse_pressed : Bool
  last_click_time : Nat
  last_click_button : Button
  last_mouse_log : Nat
  last_log_time : Nat
  pending_log : Bool
  last_input_ts : Nat
  queue : List LogEntry
deriving DecidableEq, Repr

/-- Listener state at thread start (main.rs lines 278-290): zero metrics,
no modifiers or buttons held, last_click_time 0, last button Left, both
Instant marks at the thread start time t0, nothing pending. -/
def initListener (t0 : Nat) (q : List LogEntry) (lastInput : Nat) : ListenerState :=
  { metrics := {}
    ctrl_pressed := false
    mouse_pressed := false
    last_click_time := 0
    last_click_button := .Left
    last_mouse_log := t0
    last_log_time := t0
    pending_log := false
    last_input_ts := lastInput
    queue := q }

/-- True exactly for the keys of the first KeyPress match arm, which also
drive the ctrl_pressed flag (main.rs lines 321-324 and 342-347). -/
def isCtrlKey : Key → Bool
  | .ControlLeft | .ControlRight => true
  | _ => false

/-- Metrics update for a KeyPress event, mirroring the match arms of
main.rs lines 320-341 including the ctrl-guarded KeyC and KeyV arms that
fall through to the character count when ctrl is not held. -/
def keyPressMetrics (ctrl : Bool) (m : Metrics) : Key → Metrics
  | .ControlLeft | .ControlRight => { m with mods := { m.mods with ctrl := m.mods.ctrl + 1 } }
  | .Alt | .AltGr => { m with mods := { m.mods with alt := m.mods.alt + 1 } }
  | .ShiftLeft | .ShiftRight => { m with mods := { m.mods with shift := m.mods.shift + 1 } }
  | .Return => { m with enter_count := m.enter_count + 1 }
  | .Backspace => { m with backspace_count := m.backspace_count + 1 }
  | .LeftArrow | .RightArrow | .UpArrow | .DownArrow =>
      { m with nav_keys := { m.nav_keys with arrows := m.nav_keys.arrows + 1 } }
  | .Home | .End => { m with nav_keys := { m.nav_keys with home_end := m.nav_keys.home_end + 1 } }
  | .PageUp | .PageDown =>
      { m with nav_keys := { m.nav_keys with pgup_pgdn := m.nav_keys.pgup_pgdn + 1 } }
  | .F1 | .F2 | .F3 | .F4 | .F5 | .F6 | .F7 | .F8 | .F9 | .F10 | .F11 | .F12 =>
      { m with function_keys := { m.function_keys with f1_f12 := m.function_keys.f1_f12 + 1 } }
  | .KeyC =>
      if ctrl then { m with copy_count := m.copy_count + 1 }
      else { m with char_count := m.char_count + 1 }
  | .KeyV =>
      if ctrl then { m with paste_count := m.paste_count + 1 }
      else { m with char_count := m.char_count + 1 }
  | .Other => { m with char_count := m.char_count + 1 }

/-- Per-button click counter update (main.rs lines 358-363); the wildcard
arm for unknown buttons counts nothing. -/
def buttonClickMetrics (m : Metrics) : Button → Metrics
  | .Left => { m with mouse := { m.mouse with left_clicks := m.mouse.left_clicks + 1 } }
  | .Right => { m with mouse := { m.mouse with right_clicks := m.mouse.right_clicks + 1 } }
  | .Middle => { m with mouse := { m.mouse with middle_clicks := m.mouse.middle_clicks + 1 } }
  | .Unknown _ => m

/-- Mouse-move counter update (main.rs lines 370-374): the move counter
always increments, and the drag counter increments as well while any mouse
button is held. -/
def mouseMoveMetrics (s : ListenerState) : Metrics :=
  let m1 := { s.metrics with
                mouse := { s.metrics.mouse with moves := s.metrics.mouse.moves + 1 } }
  if s.mouse_pressed
  then { m1 with mouse := { m1.mouse with drags := m1.mouse.drags + 1 } }
  else m1

/-- The event-type match of the listener callback (main.rs lines 319-389):
updates the listener state and returns the should_log flag, which starts
true and is cleared by the release arms and by both mouse-move branches. -/
def applyEvent (s : ListenerState) (t : Nat) : EventType → ListenerState × Bool
  | .KeyPress k =>
      ({ s with ctrl_pressed := if isCtrlKey k then true else s.ctrl_pressed
                metrics := keyPressMetrics s.ctrl_pressed s.metrics k }, true)
  | .KeyRelease k =>
      ({ s with ctrl_pressed := if isCtrlKey k then false else s.ctrl_pressed }, false)
  | .ButtonPress b =>
      let m1 := if t - s.last_click_time < 500 ∧ b = s.last_click_button
                then { s.metrics with
                         mouse := { s.metrics.mouse with
                                      double_clicks := s.metrics.mouse.double_clicks + 1 } }
                else s.metrics
      ({ s with mouse_pressed := true
                metrics := buttonClickMetrics m1 b
                last_click_time := t
                last_click_button := b }, true)
  | .ButtonRelease _ => ({ s with mouse_pressed := false }, false)
  | .MouseMove =>
      if t - s.last_mouse_log < 100 then ({ s with metrics := mouseMoveMetrics s }, false)
      else ({ s with metrics := mouseMoveMetrics s
                     last_mouse_log := t
                     pending_log := true }, false)
  | .Wheel =>
      ({ s with metrics := { s.metrics with
                               mouse := { s.metrics.mouse with
                                            scrolls := s.metrics.mouse.scrolls + 1 } } }, true)

/-- Result of one callback invocation: the post state, the entry flushed by
push_event if any, and how many times get_active_window_info was called. -/
structure StepOut where
  state : ListenerState
  pushed : Option LogEntry
  lookups : Nat
deriving DecidableEq, Repr

/-- One invocation of the listener callback (main.rs lines 313-415) on an
event at time t: store the timestamp, run the event match, set pending_log
when should_log survived, and attempt a flush when something is pending and
either the event was immediately eligible or at least 500 ms passed since
the last flush; the window lookup result is the win argument, and a failed
lookup leaves the pending flag and the queue untouched. -/
def listenerStep (s : ListenerState) (t : Nat) (ev : EventType)
    (win : Option WindowInfo) : StepOut :=
  let s0 := { s with last_input_ts := t }
  let s1 := (applyEvent s0 t ev).1
  let should_log := (applyEvent s0 t ev).2
  let s2 := if should_log then { s1 with pending_log := true } else s1
  if s2.pending_log = true ∧ (should_log = true ∨ 500 ≤ t - s2.last_log_time) then
    match win with
    | some wi =>
        let entry : LogEntry :=
          { app_name := wi.app_name
            window_title := wi.window_title
            process_name := wi.process_name
            pid := wi.pid
            timestamp := t
            metrics := s2.metrics }
        { state := { s2 with queue := push_event s2.queue entry
                             pending_log := false
                             last_log_time := t }
          pushed := some entry
          lookups := 1 }
    | none => { state := s2, pushed := none, lookups := 1 }
  else { state := s2, pushed := none, lookups := 0 }

/-- The flags and join handles of struct CaptureHandle (main.rs lines
179-188) relevant to the start and stop commands; a join handle is an
abstract thread identifier. -/
structure CaptureState where
  running : Bool
  join_handle : Option Nat
  video_running : Bool
  video_join_handle : Option Nat
deriving DecidableEq, Repr

/-- Outcome of a start command: the post state, the command result, and
whether a worker thread was spawned. -/
structure StartResult where
  state : CaptureState
  result : Except String String
  spawned : Bool

/-- The start_capture command (main.rs lines 471-546): reject when the
screenshot flag is set, then create the output directory (dirOk stands for
that filesystem call succeeding), set the flag, spawn the worker and record
its handle. -/
def start_capture (st : CaptureState) (dirOk : Bool) (handle : Nat) : StartResult :=
  if st.running then
    { state := st, result := .error "Capture already running", spawned := false }
  else if dirOk then
    { state := { st with running := true, join_handle := some handle }
      result := .ok "Capture started"
      spawned := true }
  else { state := st, result := .error "create dir failed", spawned := false }

/-- The start_video_capture command (main.rs lines 31-103): same shape as
start_capture over the video flag and handle. -/
def start_video_capture (st : CaptureState) (dirOk : Bool) (handle : Nat) : StartResult :=
  if st.video_running then
    { state := st, result := .error "Video capture already running", spawned := false }
  else if dirOk then
    { state := { st with video_running := true, video_join_handle := some handle }
      result := .ok "Video capture loop started"
      spawned := true }
  else { state := st, result := .error "create dir failed", spawned := false }

/-- The stop_capture command (main.rs lines 548-555): unconditionally clear
the flag, take and join the handle if present, and report success. -/
def stop_capture (st : CaptureState) : CaptureState × Except String String :=
  ({ st with running := false, join_handle := none }, .ok "Capture stopped")

/-- The stop_video_capture command (main.rs lines 105-118): reject with
NotRunning when the video flag is clear, otherwise clear it, take and join
the handle, and report success. -/
def stop_video_capture (st : CaptureState) : CaptureState × Except String String :=
  if st.video_running then
    ({ st with video_running := false, video_join_handle := none },
      .ok "Video capture stopped")
  else (st, .error "Video capture not running")

/-- The capture_status command (main.rs lines 557-560). -/
def capture_status (st : CaptureState) : Bool := st.running

/-- The is_idle command (main.rs lines 435-440): saturating subtraction of
the last input timestamp from the current time, compared strictly against
the threshold in seconds times 1000; the u64 multiplication wraps, hence
the reduction modulo 2 ^ 64. -/
def is_idle (last_input_ts now thresholdSecs : Nat) : Bool :=
  decide (thresholdSecs * 1000 % 2 ^ 64 < now - last_input_ts)

/-- The pixel-format conversion loop inside the screenshot worker of
start_capture (main.rs lines 521-530): chunks_exact(4) walks complete
4-byte pixels in BGRA order, any trailing remainder is ignored, and each
pixel is emitted as R, G, B followed by the constant alpha 255. -/
def bgra_to_rgba : List Nat → List Nat
  | b :: g :: r :: _ :: rest => r :: g :: b :: 255 :: bgra_to_rgba rest
  | _ => []

/-- A source pixel as the capturer delivers it: four bytes in the order
blue, green, red, alpha. -/
structure Pixel where
  b : Nat
  g : Nat
  r : Nat
  a : Nat
deriving DecidableEq, Repr

/-- The four bytes of a pixel in the native capture order. -/
def pixelBytes (p : Pixel) : List Nat := [p.b, p.g, p.r, p.a]

/-- The four bytes the conversion writes for a pixel: red, green and blue
unchanged, alpha forced to 255. -/
def rgbaBytes (p : Pixel) : List Nat := [p.r, p.g, p.b, 255]

theorem pushAll_append_singleton {α : Type} (es : List α) (e : α) :
    pushAll (es ++ [e]) = push_event (pushAll es) e := by
  simp [pushAll, List.foldl_append]

/-- C1: after every push in any sequence of pushes the ring buffer holds at
most 200 entries; a push onto a full buffer of 200 entries removes exactly
the oldest entry and appends the new one, and a push onto a buffer below
capacity removes nothing. -/
theorem C1_ring_buffer_bounded_fifo {α : Type} (es : List α) (e : α) :
    (pushAll es).length ≤ 200 ∧
    (pushAll (es ++ [e])).length ≤ 200 ∧
    ((pushAll es).length = 200 →
      pushAll (es ++ [e]) = (pushAll es).drop 1 ++ [e]) ∧
    ((pushAll es).length < 200 → pushAll (es ++ [e]) = pushAll es ++ [e]) := by
  refine ⟨pushAll_length_le es, pushAll_length_le (es ++ [e]), ?_, ?_⟩
  · intro hfull
    rw [pushAll_append_singleton, push_event_eq _ _ (le_of_eq hfull), hfull]
    have h1 : (1 : Nat) ≤ (pushAll es).length := by omega
    simp only [Nat.add_sub_cancel_left, Nat.reduceSub]
    rw [List.drop_append_of_le_length h1]
  · intro hlt
    rw [pushAll_append_singleton]
    unfold push_event
    rw [if_neg]
    simp only [List.length_append, List.length_singleton]
    omega

/-- C1 witness: pushing onto a concrete full buffer of 200 entries evicts
exactly the oldest entry. -/
theorem C1_ring_buffer_bounded_fifo_witness :
    pushAll (List.replicate 200 (0 : Nat) ++ [1]) =
      (pushAll (List.replicate 200 (0 : Nat))).drop 1 ++ [1] :=
  (C1_ring_buffer_bounded_fifo (List.replicate 200 (0 : Nat)) 1).2.2.1 (by decide)

/-- C7: with any limit of at least 200 (the cap), get_recent_activity on the
buffer reached by any push sequence returns exactly the not-yet-evicted
suffix of the pushed events, verbatim and in push (chronological) order; in
general the effective limit is the requested one capped at 200. -/
theorem C7_ring_buffer_roundtrip {α : Type} (es : List α) (limit : Nat)
    (hl : 200 ≤ limit) :
    get_recent_activity (pushAll es) (some limit) true = es.drop (es.length - 200) ∧
    pushAll es = es.drop (es.length - 200) ∧
    (∀ (q : List α) (n : Nat),
      get_recent_activity q (some n) true = q.drop (q.length - min n 200)) := by
  refine ⟨?_, pushAll_eq es, fun q n => by simp [get_recent_activity]⟩
  have hle := pushAll_length_le es
  have hmin : min limit 200 = 200 := Nat.min_eq_right hl
  have h0 : (pushAll es).length - 200 = 0 := by omega
  simp [get_recent_activity, hmin, h0, pushAll_eq]
  congr 1
  omega

/-- C7 witness: a concrete run with 3 pushed entries and limit 200 returns
all 3 entries in order. -/
theorem C7_ring_buffer_roundtrip_witness :
    get_recent_activity (pushAll [10, 20, 30]) (some 200) true = [(10 : Nat), 20, 30] :=
  (C7_ring_buffer_roundtrip [10, 20, 30] 200 (by decide)).1

/-- C9: the conversion loop maps every complete 4-byte pixel in native
blue, green, red, alpha order to red, green, blue, 255, keeping the red,
green and blue bytes unchanged. -/
theorem C9_bgra_to_rgba_conversion (ps : List Pixel) :
    bgra_to_rgba (ps.map pixelBytes).flatten = (ps.map rgbaBytes).flatten := by
  induction ps with
  | nil => rfl
  | cons p ps ih =>
    simp [pixelBytes, rgbaBytes, bgra_to_rgba, ih]

/-- C10: with the limit argument omitted the command returns the suffix of
the buffer of length at most 50, the unspecified default; with an
unacquirable lock it returns the empty list for any limit. -/
theorem C10_get_recent_default_limit (q : List String) :
    get_recent_activity q none true = q.drop (q.length - 50) ∧
    (get_recent_activity q none true).length ≤ 50 ∧
    (∀ (limit : Option Nat), get_recent_activity q limit false = []) := by
  have h1 : get_recent_activity q none true = q.drop (q.length - 50) := by
    show (if true = true then _ else []) = _
    rw [if_pos rfl]
    norm_num
  refine ⟨h1, ?_, fun limit => by simp [get_recent_activity]⟩
  rw [h1, List.length_drop]
  omega

theorem applyEvent_queue (s : ListenerState) (t : Nat) (ev : EventType) :
    ((applyEvent s t ev).1).queue = s.queue := by
  cases ev <;> simp only [applyEvent] <;> (try split_ifs) <;> simp

theorem applyEvent_last_log_time (s : ListenerState) (t : Nat) (ev : EventType) :
    ((applyEvent s t ev).1).last_log_time = s.last_log_time := by
  cases ev <;> simp only [applyEvent] <;> (try split_ifs) <;> simp

theorem applyEvent_last_input_ts (s : ListenerState) (t : Nat) (ev : EventType) :
    ((applyEvent s t ev).1).last_input_ts = s.last_input_ts := by
  cases ev <;> simp only [applyEvent] <;> (try split_ifs) <;> simp

theorem listenerStep_last_input_ts (s : ListenerState) (t : Nat) (ev : EventType)
    (w : Option WindowInfo) : (listenerStep s t ev w).state.last_input_ts = t := by
  have hf := applyEvent_last_input_ts { s with last_input_ts := t } t ev
  simp only [listenerStep]
  split_ifs <;> (try cases w) <;> simp [hf]

theorem applyEvent_mouseMove_throttled (s : ListenerState) (t : Nat)
    (hc : t - s.last_mouse_log < 100) :
    applyEvent s t .MouseMove = ({ s with metrics := mouseMoveMetrics s }, false) := by
  simp [applyEvent, hc]

theorem applyEvent_mouseMove_eligible (s : ListenerState) (t : Nat)
    (hc : ¬ t - s.last_mouse_log < 100) :
    applyEvent s t .MouseMove =
      ({ s with metrics := mouseMoveMetrics s
                last_mouse_log := t
                pending_log := true }, false) := by
  simp [applyEvent, hc]

theorem buttonClickMetrics_mouse_double_clicks (m : Metrics) (b : Button) :
    (buttonClickMetrics m b).mouse.double_clicks = m.mouse.double_clicks := by
  cases b <;> rfl

/-- Effect of one ButtonPress step on the click bookkeeping: the last-press
record always becomes the new press, and the double-click counter
increments exactly when the press is within 500 ms of the previous press of
the same button. -/
theorem listenerStep_buttonPress (s : ListenerState) (t : Nat) (b : Button)
    (w : Option WindowInfo) :
    (listenerStep s t (.ButtonPress b) w).state.last_click_time = t ∧
    (listenerStep s t (.ButtonPress b) w).state.last_click_button = b ∧
    (listenerStep s t (.ButtonPress b) w).state.metrics.mouse.double_clicks =
      (if t - s.last_click_time < 500 ∧ b = s.last_click_button
       then s.metrics.mouse.double_clicks + 1
       else s.metrics.mouse.double_clicks) := by
  cases w <;>
    simp only [listenerStep, applyEvent, buttonClickMetrics_mouse_double_clicks] <;>
    split_ifs <;>
    simp_all [buttonClickMetrics_mouse_double_clicks]

/-- C3: across two consecutive button presses (with a monotone clock) the
double-click counter increments by exactly one when the second press hits
the same button strictly within 500 ms, and stays unchanged on a gap of at
least 500 ms or a different button; the last-press record (time, button) is
updated by every press in both cases. -/
theorem C3_double_click_detection (s : ListenerState) (t1 t2 : Nat)
    (b1 b2 : Button) (w1 w2 : Option WindowInfo) (hmono : t1 ≤ t2) :
    (listenerStep s t1 (.ButtonPress b1) w1).state.last_click_time = t1 ∧
    (listenerStep s t1 (.ButtonPress b1) w1).state.last_click_button = b1 ∧
    (listenerStep (listenerStep s t1 (.ButtonPress b1) w1).state t2
        (.ButtonPress b2) w2).state.last_click_time = t2 ∧
    (listenerStep (listenerStep s t1 (.ButtonPress b1) w1).state t2
        (.ButtonPress b2) w2).state.last_click_button = b2 ∧
    (t2 - t1 < 500 ∧ b2 = b1 →
      (listenerStep (listenerStep s t1 (.ButtonPress b1) w1).state t2
          (.ButtonPress b2) w2).state.metrics.mouse.double_clicks =
        (listenerStep s t1 (.ButtonPress b1) w1).state.metrics.mouse.double_clicks + 1) ∧
    (500 ≤ t2 - t1 ∨ b2 ≠ b1 →
      (listenerStep (listenerStep s t1 (.ButtonPress b1) w1).state t2
          (.ButtonPress b2) w2).state.metrics.mouse.double_clicks =
        (listenerStep s t1 (.ButtonPress b1) w1).state.metrics.mouse.double_clicks) := by
  obtain ⟨h1t, h1b, _⟩ := listenerStep_buttonPress s t1 b1 w1
  obtain ⟨h2t, h2b, h2d⟩ :=
    listenerStep_buttonPress (listenerStep s t1 (.ButtonPress b1) w1).state t2 b2 w2
  rw [h1t, h1b] at h2d
  refine ⟨h1t, h1b, h2t, h2b, fun hc => ?_, fun hc => ?_⟩
  · rw [h2d, if_pos hc]
  · rw [h2d, if_neg]
    rintro ⟨hlt, heq⟩
    rcases hc with hge | hne
    · omega
    · exact hne heq

/-- C3 witness: two left presses 200 ms apart produce exactly one
double-click increment, at a concrete initial state. -/
theorem C3_double_click_detection_witness :
    (listenerStep (listenerStep (initListener 0 [] 0) 1000
        (.ButtonPress .Left) none).state 1200
        (.ButtonPress .Left) none).state.metrics.mouse.double_clicks =
      (listenerStep (initListener 0 [] 0) 1000
          (.ButtonPress .Left) none).state.metrics.mouse.double_clicks + 1 :=
  (C3_double_click_detection (initListener 0 [] 0) 1000 1200 .Left .Left none none
      (by norm_num)).2.2.2.2.1 ⟨by norm_num, rfl⟩

/-- C2: a key-release or button-release event with nothing pending never
produces a flush and leaves nothing pending; a mouse move within 100 ms of
the last eligible move with nothing pending never produces a flush and
leaves nothing pending; and any flush fired at an event that is not itself
immediately emission-eligible - a mouse move, a key release or a button
release, so that only previously pending (throttled mouse-move) activity
drives it - happens at least 500 ms after the recorded time of the
previous flush, which it then replaces with the current time. -/
theorem C2_emission_gating :
    (∀ (s : ListenerState) (t : Nat) (k : Key) (w : Option WindowInfo),
      s.pending_log = false →
        (listenerStep s t (.KeyRelease k) w).pushed = none ∧
        (listenerStep s t (.KeyRelease k) w).state.pending_log = false) ∧
    (∀ (s : ListenerState) (t : Nat) (b : Button) (w : Option WindowInfo),
      s.pending_log = false →
        (listenerStep s t (.ButtonRelease b) w).pushed = none ∧
        (listenerStep s t (.ButtonRelease b) w).state.pending_log = false) ∧
    (∀ (s : ListenerState) (t : Nat) (w : Option WindowInfo),
      s.pending_log = false → t - s.last_mouse_log < 100 →
        (listenerStep s t .MouseMove w).pushed = none ∧
        (listenerStep s t .MouseMove w).state.pending_log = false) ∧
    (∀ (s : ListenerState) (t : Nat) (w : Option WindowInfo) (e : LogEntry),
      (listenerStep s t .MouseMove w).pushed = some e →
        500 ≤ t - s.last_log_time ∧
        (listenerStep s t .MouseMove w).state.last_log_time = t) ∧
    (∀ (s : ListenerState) (t : Nat) (k : Key) (w : Option WindowInfo) (e : LogEntry),
      (listenerStep s t (.KeyRelease k) w).pushed = some e →
        500 ≤ t - s.last_log_time ∧
        (listenerStep s t (.KeyRelease k) w).state.last_log_time = t) ∧
    (∀ (s : ListenerState) (t : Nat) (b : Button) (w : Option WindowInfo) (e : LogEntry),
      (listenerStep s t (.ButtonRelease b) w).pushed = some e →
        500 ≤ t - s.last_log_time ∧
        (listenerStep s t (.ButtonRelease b) w).state.last_log_time = t) := by
  refine ⟨?_, ?_, ?_, ?_, ?_, ?_⟩
  · intro s t k w hp
    simp [listenerStep, applyEvent, hp]
  · intro s t b w hp
    simp [listenerStep, applyEvent, hp]
  · intro s t w hp hthr
    have hs := applyEvent_mouseMove_throttled { s with last_input_ts := t } t hthr
    simp only [listenerStep, hs]
    simp [hp]
  · intro s t w e
    by_cases hthr : t - s.last_mouse_log < 100
    · have hs := applyEvent_mouseMove_throttled { s with last_input_ts := t } t hthr
      simp only [listenerStep, hs]
      split_ifs <;> (try cases w) <;> simp_all
    · have hs := applyEvent_mouseMove_eligible { s with last_input_ts := t } t hthr
      simp only [listenerStep, hs]
      split_ifs <;> (try cases w) <;> simp_all
  · intro s t k w e
    simp only [listenerStep, applyEvent]
    split_ifs <;> (try cases w) <;> simp_all
  · intro s t b w e
    simp only [listenerStep, applyEvent]
    split_ifs <;> (try cases w) <;> simp_all

/-- C2 witness: concrete instances of the gates: a key release with
nothing pending does not push, a throttled mouse move with nothing pending
does not push, a mouse-move flush 600 ms after the previous flush is
allowed and restamps the flush clock, and a key-release flush draining
pending throttled-move activity 600 ms after the previous flush is allowed
and restamps the flush clock as well. -/
theorem C2_emission_gating_witness :
    (listenerStep (initListener 0 [] 0) 50 (.KeyRelease .Return) none).pushed = none ∧
    (listenerStep (initListener 1000 [] 0) 1050 .MouseMove none).pushed = none ∧
    (500 ≤ 600 - ({ initListener 0 [] 0 with pending_log := true } : ListenerState).last_log_time ∧
      (listenerStep { initListener 0 [] 0 with pending_log := true } 600 .MouseMove
          (some { app_name := "a", process_name := "a", window_title := "w", pid := 1 })
        ).state.last_log_time = 600) ∧
    (500 ≤ 600 - ({ initListener 0 [] 0 with pending_log := true } : ListenerState).last_log_time ∧
      (listenerStep { initListener 0 [] 0 with pending_log := true } 600 (.KeyRelease .Other)
          (some { app_name := "a", process_name := "a", window_title := "w", pid := 1 })
        ).state.last_log_time = 600) :=
  ⟨(C2_emission_gating.1 (initListener 0 [] 0) 50 .Return none rfl).1,
   (C2_emission_gating.2.2.1 (initListener 1000 [] 0) 1050 none rfl (by decide)).1,
   C2_emission_gating.2.2.2.1 { initListener 0 [] 0 with pending_log := true } 600
     (some { app_name := "a", process_name := "a", window_title := "w", pid := 1 }) _ rfl,
   C2_emission_gating.2.2.2.2.1 { initListener 0 [] 0 with pending_log := true } 600 .Other
     (some { app_name := "a", process_name := "a", window_title := "w", pid := 1 }) _ rfl⟩

/-- C8: each listener step calls the window lookup at most once, the number
of lookup attempts does not depend on the lookup result, a push implies a
lookup happened, and when a flush is attempted but the lookup fails nothing
is pushed, the queue and the flush clock are untouched, and the pending
flag is still set so the next qualifying event retries the flush. -/
theorem C8_flush_window_lookup (s : ListenerState) (t : Nat) (ev : EventType)
    (w : Option WindowInfo) :
    (listenerStep s t ev w).lookups ≤ 1 ∧
    (listenerStep s t ev w).lookups = (listenerStep s t ev none).lookups ∧
    (∀ e, (listenerStep s t ev w).pushed = some e →
      (listenerStep s t ev w).lookups = 1) ∧
    ((listenerStep s t ev none).lookups = 1 →
      (listenerStep s t ev none).pushed = none ∧
      (listenerStep s t ev none).state.pending_log = true ∧
      (listenerStep s t ev none).state.queue = s.queue ∧
      (listenerStep s t ev none).state.last_log_time = s.last_log_time) := by
  refine ⟨?_, ?_, ?_, ?_⟩
  · simp only [listenerStep]
    split_ifs <;> (try cases w) <;> simp
  · simp only [listenerStep]
    split_ifs <;> (try cases w) <;> simp
  · intro e
    simp only [listenerStep]
    split_ifs <;> (try cases w) <;> simp
  · simp only [listenerStep]
    split_ifs <;>
      simp_all [applyEvent_queue, applyEvent_last_log_time]

/-- C8 witness: a flush attempt on a pending mouse move with a failed
window lookup pushes nothing and keeps the pending flag, queue and flush
clock. -/
theorem C8_flush_window_lookup_witness :
    (listenerStep { initListener 0 [] 0 with pending_log := true } 600
        .MouseMove none).pushed = none ∧
    (listenerStep { initListener 0 [] 0 with pending_log := true } 600
        .MouseMove none).state.pending_log = true ∧
    (listenerStep { initListener 0 [] 0 with pending_log := true } 600
        .MouseMove none).state.queue =
      ({ initListener 0 [] 0 with pending_log := true } : ListenerState).queue ∧
    (listenerStep { initListener 0 [] 0 with pending_log := true } 600
        .MouseMove none).state.last_log_time =
      ({ initListener 0 [] 0 with pending_log := true } : ListenerState).last_log_time :=
  (C8_flush_window_lookup { initListener 0 [] 0 with pending_log := true } 600
      .MouseMove none).2.2.2 rfl

/-- C4: starting a loop whose running flag is already set fails with the
AlreadyRunning error without spawning a thread or changing state, for both
loop kinds and regardless of the filesystem; otherwise (with the output
directory creatable) the flag is set, a worker is spawned and its join
handle is recorded. -/
theorem C4_start_contract (st : CaptureState) (dirOk : Bool) (handle : Nat) :
    (st.running = true →
      start_capture st dirOk handle =
        { state := st, result := .error "Capture already running", spawned := false }) ∧
    (st.running = false →
      start_capture st true handle =
        { state := { st with running := true, join_handle := some handle }
          result := .ok "Capture started", spawned := true }) ∧
    (st.video_running = true →
      start_video_capture st dirOk handle =
        { state := st, result := .error "Video capture already running", spawned := false }) ∧
    (st.video_running = false →
      start_video_capture st true handle =
        { state := { st with video_running := true, video_join_handle := some handle }
          result := .ok "Video capture loop started", spawned := true }) := by
  refine ⟨fun hr => ?_, fun hr => ?_, fun hr => ?_, fun hr => ?_⟩ <;>
    simp [start_capture, start_video_capture, hr]

/-- C4 witness: a second start on a running screenshot loop is rejected and
a first start of the video loop succeeds, at concrete states. -/
theorem C4_start_contract_witness :
    start_capture
        { running := true, join_handle := some 1
          video_running := false, video_join_handle := none } true 2 =
      { state := { running := true, join_handle := some 1
                   video_running := false, video_join_handle := none }
        result := .error "Capture already running", spawned := false } ∧
    start_video_capture
        { running := false, join_handle := none
          video_running := false, video_join_handle := none } true 3 =
      { state := { running := false, join_handle := none
                   video_running := true, video_join_handle := some 3 }
        result := .ok "Video capture loop started", spawned := true } :=
  ⟨(C4_start_contract _ true 2).1 rfl, (C4_start_contract _ true 3).2.2.2 rfl⟩

/-- C5: stopping the video loop when its flag is clear fails with the
NotRunning error and leaves the state untouched, while stop_capture always
returns the stopped message and is a no-op on an already-stopped screenshot
loop. -/
theorem C5_stop_contract (st : CaptureState) :
    (st.video_running = false →
      stop_video_capture st = (st, .error "Video capture not running")) ∧
    (stop_capture st).2 = .ok "Capture stopped" ∧
    (st.running = false → st.join_handle = none →
      stop_capture st = (st, .ok "Capture stopped")) := by
  refine ⟨fun hv => ?_, rfl, fun h1 h2 => ?_⟩
  · simp [stop_video_capture, hv]
  · cases st
    simp_all [stop_capture]

/-- C5 witness: stop at a concrete fully-stopped state errors for the video
loop and succeeds unchanged for the screenshot loop. -/
theorem C5_stop_contract_witness :
    stop_video_capture
        { running := false, join_handle := none
          video_running := false, video_join_handle := none } =
      ({ running := false, join_handle := none
         video_running := false, video_join_handle := none },
        .error "Video capture not running") ∧
    stop_capture
        { running := false, join_handle := none
          video_running := false, video_join_handle := none } =
      ({ running := false, join_handle := none
         video_running := false, video_join_handle := none },
        .ok "Capture stopped") :=
  ⟨(C5_stop_contract _).1 rfl, (C5_stop_contract _).2.2 rfl rfl⟩

/-- C6: whenever the threshold in milliseconds fits a u64, is_idle is true
exactly when the saturating difference between now and the last input
timestamp strictly exceeds the threshold times 1000; at the moment of any
input event it is false, since every listener step stores the event time in
last_input_ts. -/
theorem C6_is_idle_iff (last now thresholdSecs : Nat)
    (hθ : thresholdSecs * 1000 < 2 ^ 64) :
    (is_idle last now thresholdSecs = true ↔ thresholdSecs * 1000 < now - last) ∧
    is_idle now now thresholdSecs = false ∧
    (∀ (s : ListenerState) (ev : EventType) (w : Option WindowInfo),
      is_idle (listenerStep s now ev w).state.last_input_ts now thresholdSecs = false) := by
  refine ⟨?_, ?_, ?_⟩
  · unfold is_idle
    rw [Nat.mod_eq_of_lt hθ]
    exact decide_eq_true_iff
  · simp [is_idle]
  · intro s ev w
    rw [listenerStep_last_input_ts]
    simp [is_idle]

/-- C6 witness: with threshold 5 seconds, 5001 elapsed milliseconds are
idle and 5000 are not. -/
theorem C6_is_idle_iff_witness :
    is_idle 1000 6001 5 = true ∧ is_idle 1000 6000 5 = false :=
  ⟨(C6_is_idle_iff 1000 6001 5 (by norm_num)).1.mpr (by norm_num),
   by have := (C6_is_idle_iff 1000 6000 5 (by norm_num)).1
      rw [Bool.eq_false_iff]
      intro hcontra
      exact absurd (this.mp hcontra) (by norm_num)⟩

end Spectosoft
